import Mathlib

/-!
Verification development for the futarchy-twap library (`lib/index.js`).

The JavaScript core is shallowly embedded in Lean:
* addresses are natural numbers, with `0` playing the role of the zero
  address `ethers.constants.AddressZero`;
* JS numbers that carry prices, ticks and timestamps are exact rationals;
* the one genuinely floating-point operation, `Math.pow(1.0001, averageTick)`,
  is abstracted as an environment function `pow10001 : Rat -> Option Rat`
  (`none` models a non-finite double), so the guard
  `!Number.isFinite(rawPrice) || rawPrice <= 0` can be stated faithfully;
* every on-chain read (proposal reads, factory lookups, oracle reads,
  `token0()`, token metadata) is a field of a `TwapEnv` record; fallible
  reads return `Except String`, best-effort reads that the source wraps in
  `.catch` with a default are total;
* JS `async` exceptions become `Except String`; a result object with an
  `error` field stays on the `.ok` side, mirroring the source's distinction
  between thrown errors and error-flagged results.
-/

/-- Per-chain configuration (`CHAIN_CONFIG` in the source): display name,
default RPC URL, exchange protocol mode (`algebra` or `uniswap`), factory
address, and the fee tiers probed on the Uniswap V3 protocol. -/
structure ChainConfig where
  name : String
  rpcUrl : String
  mode : String
  factory : String
  feeTiers : List Nat
  deriving DecidableEq, Repr

/-- `CHAIN_CONFIG[100]` — Gnosis, Algebra protocol. -/
def gnosisConfig : ChainConfig :=
  { name := "Gnosis"
    rpcUrl := "https://rpc.gnosischain.com"
    mode := "algebra"
    factory := "0xA0864cCA6E114013AB0e27cbd5B6f4c8947da766"
    feeTiers := [] }

/-- `CHAIN_CONFIG[1]` — Ethereum, Uniswap V3 protocol, with the declared
fee-tier order `[500, 3000, 10000, 100]`. -/
def ethereumConfig : ChainConfig :=
  { name := "Ethereum"
    rpcUrl := "https://eth-mainnet.public.blastapi.io"
    mode := "uniswap"
    factory := "0x1F98431c8aD98523631AE4a59f267346ea31F984"
    feeTiers := [500, 3000, 10000, 100] }

/-- The chain registry: exactly chain ids `100` and `1` are configured. -/
def CHAIN_CONFIG : Nat → Option ChainConfig
  | 100 => some gnosisConfig
  | 1 => some ethereumConfig
  | _ => none

/-- Output of `getProposalTokens`: the four wrapped-outcome token addresses,
the two collateral token addresses, and the (best-effort) market name. -/
structure ProposalTokens where
  yesCompany : Nat
  noCompany : Nat
  yesCurrency : Nat
  noCurrency : Nat
  companyToken : Nat
  currencyToken : Nat
  marketName : String
  deriving DecidableEq, Repr

/-- Output of `getTokenInfo` (symbol and decimals are best-effort reads that
fall back to `UNKNOWN` / `18`, so the operation as a whole is total). -/
structure TokenInfo where
  address : Nat
  symbol : String
  decimals : Nat
  deriving DecidableEq, Repr

/-- Output of `detectInversion`. -/
structure Inversion where
  shouldInvert : Bool
  token0 : Nat
  deriving DecidableEq, Repr

/-- The abstract on-chain environment seen by one request: the wall clock
(`Math.floor(Date.now() / 1000)`), the proposal reads, the two factory
lookup methods, the pool `token0()` read, token metadata, the cumulative-tick
oracle (`getTimepoints` / `observe`, which differ only in method name and
return shape and both yield the pair of cumulative ticks at
`[secondsWindow, 0]`), and the `Math.pow(1.0001, ·)` evaluation. -/
structure TwapEnv where
  now : Int
  tokens : Except String ProposalTokens
  poolByPair : Nat → Nat → Except String Nat
  getPool : Nat → Nat → Nat → Except String Nat
  token0Of : Nat → Except String Nat
  tokenInfo : Nat → TokenInfo
  tickCumulatives : Nat → Int → Except String (Int × Int)
  pow10001 : Rat → Option Rat

/-- The `.catch(() => ZERO)` wrapper the source puts around each individual
factory lookup: a failed read is treated as the zero address. -/
def exceptToZero (e : Except String Nat) : Nat :=
  match e with
  | .ok a => a
  | .error _ => 0

/-- `findPool(provider, chainId, tokenA, tokenB)`.
On `algebra`, tries `poolByPair(tokenA, tokenB)` and, if that yields the zero
address, retries with the arguments swapped; on `uniswap`, maps every
configured fee tier through `getPool` (each lookup error-caught to zero) and
takes the first non-zero result.  Returns `none` for "no pool"; the function
never raises (its total `Option` type mirrors the source, where every inner
read is caught). -/
def findPool (config : ChainConfig) (env : TwapEnv) (tokenA tokenB : Nat) : Option Nat :=
  if config.mode = "algebra" then
    let p1 := exceptToZero (env.poolByPair tokenA tokenB)
    let pool := if p1 = 0 then exceptToZero (env.poolByPair tokenB tokenA) else p1
    if pool = 0 then none else some pool
  else if config.mode = "uniswap" then
    match (config.feeTiers.map fun fee => exceptToZero (env.getPool tokenA tokenB fee)).find?
        (fun r => r != 0) with
    | some p => some p
    | none => none
  else
    none

/-- `discoverConditionalPools`: YES pool from (yesCompany, yesCurrency) and
NO pool from (noCompany, noCurrency). -/
def discoverConditionalPools (config : ChainConfig) (env : TwapEnv) (t : ProposalTokens) :
    Option Nat × Option Nat :=
  (findPool config env t.yesCompany t.yesCurrency,
   findPool config env t.noCompany t.noCurrency)

/-- `detectInversion(provider, poolAddress, companyTokenAddress)`: reads
`pool.token0()`; inversion is needed exactly when `token0` differs from the
company token (addresses are already canonical in this embedding, standing
for the source's lowercased comparison). -/
def detectInversion (env : TwapEnv) (poolAddress companyTokenAddress : Nat) :
    Except String Inversion :=
  match env.token0Of poolAddress with
  | .error e => .error e
  | .ok token0 => .ok { shouldInvert := token0 ≠ companyTokenAddress, token0 := token0 }

/-- Per-pool TWAP output of `calculatePoolTwap`. -/
structure PoolTwap where
  rawPrice : Rat
  normalizedPrice : Rat
  averageTick : Rat
  secondsWindow : Int
  inverted : Bool
  deriving DecidableEq, Repr

/-- `Math.max(1, Math.floor(secondsAgo))`. -/
def secondsWindowOf (secondsAgo : Rat) : Int :=
  max 1 ⌊secondsAgo⌋

/-- `Number(latest - oldest) / secondsWindow`: the cumulative-tick difference
is taken exactly in `Int` (the source uses `BigInt`, safe beyond 64 bits)
and only then divided by the window length. -/
def averageTickOf (oldest latest : Int) (secondsWindow : Int) : Rat :=
  ((latest - oldest : Int) : Rat) / (secondsWindow : Rat)

/-- `calculatePoolTwap(provider, chainId, poolAddress, secondsAgo, shouldInvert)`:
reads the two cumulative ticks, derives the average tick, evaluates
`Math.pow(1.0001, averageTick)` (abstracted as `env.pow10001`), and throws
`Invalid price from oracle` when the result is non-finite or non-positive;
otherwise normalizes by inverting when `shouldInvert` is set. -/
def calculatePoolTwap (env : TwapEnv) (poolAddress : Nat) (secondsAgo : Rat)
    (shouldInvert : Bool) : Except String PoolTwap :=
  let sw := secondsWindowOf secondsAgo
  match env.tickCumulatives poolAddress sw with
  | .error e => .error e
  | .ok (oldest, latest) =>
    let averageTick := averageTickOf oldest latest sw
    match env.pow10001 averageTick with
    | none => .error "Invalid price from oracle"
    | some rawPrice =>
      if rawPrice ≤ 0 then .error "Invalid price from oracle"
      else
        .ok { rawPrice := rawPrice
              normalizedPrice := if shouldInvert then 1 / rawPrice else rawPrice
              averageTick := averageTick
              secondsWindow := sw
              inverted := shouldInvert }

/-- JS truncation toward zero, as used by the `%` operator on numbers. -/
def jsTrunc (q : Rat) : Int :=
  if q < 0 then -⌊-q⌋ else ⌊q⌋

/-- The JS `%` operator on numbers: `a - b * trunc(a / b)`. -/
def jsMod (a b : Rat) : Rat :=
  a - b * (jsTrunc (a / b) : Rat)

/-- `formatDuration(seconds)`: days/hours/minutes/seconds parts, joined with
spaces, falling back to `0s` when every part is zero. -/
def formatDuration (seconds : Rat) : String :=
  let d := ⌊seconds / 86400⌋
  let h := ⌊jsMod seconds 86400 / 3600⌋
  let m := ⌊jsMod seconds 3600 / 60⌋
  let s := ⌊jsMod seconds 60⌋
  let parts : List String :=
    (if 0 < d then [toString d ++ "d"] else []) ++
    (if 0 < h then [toString h ++ "h"] else []) ++
    (if 0 < m then [toString m ++ "m"] else []) ++
    (if 0 < s then [toString s ++ "s"] else [])
  if parts = [] then "0s" else String.intercalate " " parts

/-- Window status of `calculateTwap`. -/
inductive Status where
  | NOT_STARTED
  | ACTIVE
  | ENDED
  deriving DecidableEq, Repr

/-- The status derivation in `calculateTwap`:
`now < start` is NOT_STARTED, else `now >= end` is ENDED, else ACTIVE. -/
def statusOf (now : Int) (startT endT : Rat) : Status :=
  if (now : Rat) < startT then .NOT_STARTED
  else if endT ≤ (now : Rat) then .ENDED
  else .ACTIVE

/-- The winner ternary in `calculateTwap`:
`spread > 1e-8 ? YES : spread < -1e-8 ? NO : TIE`. -/
def winnerOf (yesPrice noPrice : Rat) : String :=
  let spread := yesPrice - noPrice
  if spread > 1 / 100000000 then "YES"
  else if spread < -(1 / 100000000) then "NO"
  else "TIE"

/-- The lookback window fed to the TWAP engine: the full configured duration
once ENDED, otherwise `min(now - start, duration)`. -/
def twapSecondsAgo (now : Int) (startT dur : Rat) (st : Status) : Rat :=
  if st = .ENDED then dur else min ((now : Rat) - startT) dur

/-- Caller options of `calculateTwap` / `discoverPools`. -/
structure TwapOptions where
  days : Option Rat
  endTimestamp : Option Rat
  rpcUrl : Option String
  deriving DecidableEq, Repr

/-- `options.days || 5`: an absent or zero (JS-falsy) value becomes 5. -/
def windowDays (o : TwapOptions) : Rat :=
  match o.days with
  | none => 5
  | some d => if d = 0 then 5 else d

/-- `options.endTimestamp || now`: an absent or zero value becomes `now`. -/
def windowEnd (env : TwapEnv) (o : TwapOptions) : Rat :=
  match o.endTimestamp with
  | none => (env.now : Rat)
  | some t => if t = 0 then (env.now : Rat) else t

/-- The `tokens` object of a result.  The source emits two shapes: the
early-error shape carries the six raw addresses (`companyToken` and
`currencyToken` populated, no metadata), the success shape carries
`company`/`currency` metadata records plus the four outcome addresses. -/
structure TokensOut where
  company : Option TokenInfo
  currency : Option TokenInfo
  yesCompany : Nat
  noCompany : Nat
  yesCurrency : Nat
  noCurrency : Nat
  companyToken : Option Nat
  currencyToken : Option Nat
  deriving DecidableEq, Repr

/-- A pool reference in a result: address plus, once orientation has been
checked, the inversion flag (`none` on the early-error shape, where the
source emits the bare address). -/
structure PoolOut where
  address : Nat
  inverted : Option Bool
  deriving DecidableEq, Repr

/-- One side of the `twap` object. -/
structure TwapSide where
  price : Rat
  rawPrice : Rat
  averageTick : Rat
  inverted : Bool
  deriving DecidableEq, Repr

/-- The pair-level `twap` object (`percentDiff` is kept as the exact number
the source formats with `toFixed(4)`). -/
structure TwapOut where
  yes : TwapSide
  no : TwapSide
  spread : Rat
  percentDiff : Rat
  winner : String
  windowSeconds : Rat
  deriving DecidableEq, Repr

/-- The `twapWindow` object. -/
structure TwapWindowOut where
  startTimestamp : Rat
  endTimestamp : Rat
  days : Rat
  durationSeconds : Rat
  deriving DecidableEq, Repr

/-- A countdown (`timeUntilStart` / `timeRemaining`). -/
structure Countdown where
  seconds : Rat
  human : String
  deriving DecidableEq, Repr

/-- The result object of `calculateTwap` (absent JS fields are `none`; the
display-only `timestamp`, ISO date strings and `windowHours` are omitted). -/
structure TwapResult where
  proposalAddress : String
  chainId : Nat
  chain : String
  marketName : String
  error : Option String
  tokens : TokensOut
  pools : Option PoolOut × Option PoolOut
  twapWindow : Option TwapWindowOut
  status : Option Status
  twap : Option TwapOut
  timeUntilStart : Option Countdown
  timeRemaining : Option Countdown
  deriving DecidableEq, Repr

/-- The body of `calculateTwap` after the option defaults have been applied
(`days` and `endT` are the resolved window parameters). -/
def calculateTwapCore (env : TwapEnv) (proposalAddress : String) (chainId : Nat)
    (days endT : Rat) : Except String TwapResult :=
  match CHAIN_CONFIG chainId with
  | none => .error "Unsupported chain"
  | some config =>
    let dur := days * 86400
    let startT := endT - dur
    let status := statusOf env.now startT endT
    match env.tokens with
    | .error e => .error e
    | .ok tokens =>
      match discoverConditionalPools config env tokens with
      | (some yp, some np) =>
        (match detectInversion env yp tokens.yesCompany,
               detectInversion env np tokens.noCompany with
        | .ok yesInv, .ok noInv =>
          let companyInfo := env.tokenInfo tokens.companyToken
          let currencyInfo := env.tokenInfo tokens.currencyToken
          let base : TwapResult :=
            { proposalAddress := proposalAddress
              chainId := chainId
              chain := config.name
              marketName := tokens.marketName
              error := none
              tokens :=
                { company := some companyInfo
                  currency := some currencyInfo
                  yesCompany := tokens.yesCompany
                  noCompany := tokens.noCompany
                  yesCurrency := tokens.yesCurrency
                  noCurrency := tokens.noCurrency
                  companyToken := none
                  currencyToken := none }
              pools := (some { address := yp, inverted := some yesInv.shouldInvert },
                        some { address := np, inverted := some noInv.shouldInvert })
              twapWindow := some
                { startTimestamp := startT
                  endTimestamp := endT
                  days := days
                  durationSeconds := dur }
              status := some status
              twap := none
              timeUntilStart := none
              timeRemaining := none }
          if status = .NOT_STARTED then
            .ok { base with
              timeUntilStart := some
                { seconds := startT - (env.now : Rat)
                  human := formatDuration (startT - (env.now : Rat)) } }
          else
            let secondsAgo := twapSecondsAgo env.now startT dur status
            match calculatePoolTwap env yp secondsAgo yesInv.shouldInvert,
                  calculatePoolTwap env np secondsAgo noInv.shouldInvert with
            | .ok yesTwap, .ok noTwap =>
              let spread := yesTwap.normalizedPrice - noTwap.normalizedPrice
              let winner := winnerOf yesTwap.normalizedPrice noTwap.normalizedPrice
              let loser := min yesTwap.normalizedPrice noTwap.normalizedPrice
              let percentDiff := if 0 < loser then |spread| / loser * 100 else 0
              .ok { base with
                twap := some
                  { yes :=
                      { price := yesTwap.normalizedPrice
                        rawPrice := yesTwap.rawPrice
                        averageTick := yesTwap.averageTick
                        inverted := yesTwap.inverted }
                    no :=
                      { price := noTwap.normalizedPrice
                        rawPrice := noTwap.rawPrice
                        averageTick := noTwap.averageTick
                        inverted := noTwap.inverted }
                    spread := spread
                    percentDiff := percentDiff
                    winner := winner
                    windowSeconds := secondsAgo }
                timeRemaining :=
                  if status = .ACTIVE then
                    some { seconds := endT - (env.now : Rat)
                           human := formatDuration (endT - (env.now : Rat)) }
                  else none }
            | .error e, _ =>
              .ok { base with error := some ("TWAP calculation failed: " ++ e) }
            | .ok _, .error e =>
              .ok { base with error := some ("TWAP calculation failed: " ++ e) }
        | .error e, _ => .error e
        | .ok _, .error e => .error e)
      | (yp, np) =>
        .ok
          { proposalAddress := proposalAddress
            chainId := chainId
            chain := config.name
            marketName := tokens.marketName
            error := some "Could not find YES/NO conditional pools on-chain"
            tokens :=
              { company := none
                currency := none
                yesCompany := tokens.yesCompany
                noCompany := tokens.noCompany
                yesCurrency := tokens.yesCurrency
                noCurrency := tokens.noCurrency
                companyToken := some tokens.companyToken
                currencyToken := some tokens.currencyToken }
            pools := (yp.map fun a => { address := a, inverted := none },
                      np.map fun a => { address := a, inverted := none })
            twapWindow := none
            status := none
            twap := none
            timeUntilStart := none
            timeRemaining := none }

/-- `calculateTwap(proposalAddress, chainId, options)`: resolves the option
defaults (`days || 5`, `endTimestamp || now`) and runs the core pipeline. -/
def calculateTwap (env : TwapEnv) (proposalAddress : String) (chainId : Nat)
    (options : TwapOptions) : Except String TwapResult :=
  calculateTwapCore env proposalAddress chainId (windowDays options) (windowEnd env options)

/-- Occurrence of one character list inside another (contiguous). -/
def charsInfixOf (needle : List Char) : List Char → Bool
  | [] => needle.isEmpty
  | c :: t => needle.isPrefixOf (c :: t) || charsInfixOf needle t

/-- JS `String.prototype.includes`, decided on the underlying character
lists. -/
def jsIncludes (s needle : String) : Bool :=
  charsInfixOf needle.toList s.toList

/-- JS `String.prototype.startsWith`, decided on the underlying character
lists. -/
def jsStartsWith (s pre : String) : Bool :=
  pre.toList.isPrefixOf s.toList

/-- One entry of the `discoverPools` output list. -/
structure PoolEntry where
  name : String
  address : Option Nat
  exists_ : Bool
  inverted : Option Bool
  deriving DecidableEq, Repr

/-- One iteration of the `discoverPools` loop: find the pool for the pair
and, for a found pool of a `Conditional` pair, detect inversion against the
YES or NO company token according to the pair name's prefix.  A failing
inversion read propagates (the source does not catch it). -/
def mkPoolEntry (config : ChainConfig) (env : TwapEnv) (t : ProposalTokens)
    (name : String) (t0 t1 : Nat) : Except String PoolEntry :=
  match findPool config env t0 t1 with
  | none => .ok { name := name, address := none, exists_ := false, inverted := none }
  | some a =>
    if jsIncludes name "Conditional" then
      match detectInversion env a
          (if jsStartsWith name "YES" then t.yesCompany else t.noCompany) with
      | .error e => .error e
      | .ok inv =>
        .ok { name := name, address := some a, exists_ := true,
              inverted := some inv.shouldInvert }
    else
      .ok { name := name, address := some a, exists_ := true, inverted := none }

/-- The result object of `discoverPools`. -/
structure PoolsResult where
  proposalAddress : String
  chainId : Nat
  chain : String
  marketName : String
  tokens : TokensOut
  pools : List PoolEntry
  found : Nat
  total : Nat
  deriving DecidableEq, Repr

/-- The six pair names of `discoverPools`, in declared order. -/
def poolPairNames : List String :=
  ["YES_COMPANY/YES_CURRENCY (Conditional)",
   "NO_COMPANY/NO_CURRENCY (Conditional)",
   "YES_COMPANY/BASE_CURRENCY (Prediction)",
   "NO_COMPANY/BASE_CURRENCY (Prediction)",
   "YES_CURRENCY/BASE_CURRENCY (Prediction)",
   "NO_CURRENCY/BASE_CURRENCY (Prediction)"]

/-- `discoverPools(proposalAddress, chainId, options)`: resolves the proposal
tokens, scans the six pairs in declared order (the source's sequential
`for` loop, unrolled here), and reports the entries together with
`found` (count of existing pools) and `total` (list length). -/
def discoverPools (env : TwapEnv) (proposalAddress : String) (chainId : Nat)
    (_options : TwapOptions) : Except String PoolsResult :=
  match CHAIN_CONFIG chainId with
  | none => .error "Unsupported chain"
  | some config =>
    match env.tokens with
    | .error e => .error e
    | .ok t =>
      match mkPoolEntry config env t "YES_COMPANY/YES_CURRENCY (Conditional)"
              t.yesCompany t.yesCurrency,
            mkPoolEntry config env t "NO_COMPANY/NO_CURRENCY (Conditional)"
              t.noCompany t.noCurrency,
            mkPoolEntry config env t "YES_COMPANY/BASE_CURRENCY (Prediction)"
              t.yesCompany t.currencyToken,
            mkPoolEntry config env t "NO_COMPANY/BASE_CURRENCY (Prediction)"
              t.noCompany t.currencyToken,
            mkPoolEntry config env t "YES_CURRENCY/BASE_CURRENCY (Prediction)"
              t.yesCurrency t.currencyToken,
            mkPoolEntry config env t "NO_CURRENCY/BASE_CURRENCY (Prediction)"
              t.noCurrency t.currencyToken with
      | .ok e1, .ok e2, .ok e3, .ok e4, .ok e5, .ok e6 =>
        let poolResults := [e1, e2, e3, e4, e5, e6]
        .ok
          { proposalAddress := proposalAddress
            chainId := chainId
            chain := config.name
            marketName := t.marketName
            tokens :=
              { company := some (env.tokenInfo t.companyToken)
                currency := some (env.tokenInfo t.currencyToken)
                yesCompany := t.yesCompany
                noCompany := t.noCompany
                yesCurrency := t.yesCurrency
                noCurrency := t.noCurrency
                companyToken := none
                currencyToken := none }
            pools := poolResults
            found := (poolResults.filter fun p => p.exists_).length
            total := poolResults.length }
      | .error e, _, _, _, _, _ => .error e
      | _, .error e, _, _, _, _ => .error e
      | _, _, .error e, _, _, _ => .error e
      | _, _, _, .error e, _, _ => .error e
      | _, _, _, _, .error e, _ => .error e
      | _, _, _, _, _, .error e => .error e

/-- The module-level provider cache: an association list from cache key to
provider identity (providers are identified by creation order), plus the
next fresh identity. -/
structure ProviderCache where
  entries : List (String × Nat)
  nextId : Nat
  deriving DecidableEq, Repr

/-- The initial empty cache (`const providers = {}`). -/
def emptyProviderCache : ProviderCache :=
  { entries := [], nextId := 0 }

/-- The cache key of `getProvider`: `rpcUrl || chainId` — the RPC override
when present and non-empty (the empty string is JS-falsy), else the chain id
coerced to an object-property string. -/
def cacheKey (chainId : Nat) (rpcUrl : Option String) : String :=
  match rpcUrl with
  | some u => if u = "" then toString chainId else u
  | none => toString chainId

/-- `getProvider(chainId, rpcUrl)`: returns the cached provider under the
key when present; otherwise checks the chain registry (throwing
`Unsupported chain` on an unknown id) and inserts a fresh provider under the
key.  Entries are only ever added, never removed or replaced. -/
def getProvider (st : ProviderCache) (chainId : Nat) (rpcUrl : Option String) :
    Except String (Nat × ProviderCache) :=
  let key := cacheKey chainId rpcUrl
  match st.entries.lookup key with
  | some p => .ok (p, st)
  | none =>
    match CHAIN_CONFIG chainId with
    | none => .error "Unsupported chain"
    | some _ =>
      .ok (st.nextId, { entries := (key, st.nextId) :: st.entries, nextId := st.nextId + 1 })

/-- Well-formedness of a cache state reachable from the empty cache: every
stored provider identity is below the fresh counter, and identities are
pairwise distinct. -/
def ProviderCache.WF (st : ProviderCache) : Prop :=
  (∀ e ∈ st.entries, e.2 < st.nextId) ∧ (st.entries.map Prod.snd).Nodup

/-- A concrete environment for evaluation: tokens resolve, only the NO
conditional pair (3, 4) has a pool (address 7) on the Algebra factory, and
`Math.pow` always yields 1. -/
def envA : TwapEnv :=
  { now := 0
    tokens := .ok
      { yesCompany := 1, noCompany := 3, yesCurrency := 2, noCurrency := 4
        companyToken := 5, currencyToken := 6, marketName := "Market" }
    poolByPair := fun a b => if a = 3 ∧ b = 4 then .ok 7 else .ok 0
    getPool := fun _ _ _ => .ok 0
    token0Of := fun _ => .ok 1
    tokenInfo := fun ad => { address := ad, symbol := "TOK", decimals := 18 }
    tickCumulatives := fun _ _ => .ok (0, 0)
    pow10001 := fun _ => some 1 }

/-- A concrete environment in which both conditional pools exist (YES pool 8,
NO pool 7) but `Math.pow` yields a non-finite double, so the TWAP step
raises `Invalid price from oracle`. -/
def envB : TwapEnv :=
  { now := 1000000
    tokens := .ok
      { yesCompany := 1, noCompany := 3, yesCurrency := 2, noCurrency := 4
        companyToken := 5, currencyToken := 6, marketName := "Market" }
    poolByPair := fun a b =>
      if a = 1 ∧ b = 2 then .ok 8 else if a = 3 ∧ b = 4 then .ok 7 else .ok 0
    getPool := fun _ _ _ => .ok 0
    token0Of := fun p => .ok (if p = 8 then 1 else 99)
    tokenInfo := fun ad => { address := ad, symbol := "TOK", decimals := 18 }
    tickCumulatives := fun _ _ => .ok (0, 0)
    pow10001 := fun _ => none }

/-- `envA` with a synthetic cumulative-tick reading of `(1000, -200)`,
i.e. a tick delta of `600 * (-2)`. -/
def envC2 : TwapEnv :=
  { envA with tickCumulatives := fun _ _ => .ok (1000, -200) }

/-- Claim C1: the winner determination in `calculateTwap` uses a fixed
epsilon of 1e-8 on the spread `yes - no`: the winner is `YES` exactly when
the spread exceeds 1e-8, `NO` exactly when it is below -1e-8, and `TIE`
otherwise; in particular a spread of exactly +1e-8 yields `TIE`. -/
theorem winnerOf_epsilon_boundary (y n : Rat) :
    (winnerOf y n = "YES" ↔ 1 / 100000000 < y - n) ∧
    (winnerOf y n = "NO" ↔ y - n < -(1 / 100000000)) ∧
    (winnerOf y n = "TIE" ↔ -(1 / 100000000) ≤ y - n ∧ y - n ≤ 1 / 100000000) ∧
    winnerOf (n + 1 / 100000000) n = "TIE" := by
  have h4 : winnerOf (n + 1 / 100000000) n = "TIE" := by
    simp only [winnerOf, add_sub_cancel_left]
    rw [if_neg (lt_irrefl _), if_neg (by norm_num)]
  refine ⟨?_, ?_, ?_, h4⟩ <;> simp only [winnerOf] <;> split_ifs with h1 h2
  · exact iff_of_true rfl h1
  · exact iff_of_false (by decide) h1
  · exact iff_of_false (by decide) h1
  · exact iff_of_false (by decide) (by intro hc; linarith)
  · exact iff_of_true rfl h2
  · exact iff_of_false (by decide) h2
  · exact iff_of_false (by decide) (by rintro ⟨-, hb⟩; linarith)
  · exact iff_of_false (by decide) (by rintro ⟨ha, -⟩; linarith)
  · exact iff_of_true rfl ⟨not_lt.1 h2, not_lt.1 h1⟩

/-- Claim C5: for a window with `start = end - days*86400` (nonnegative
window length, as produced by the resolved `days` option), the status
computed by `calculateTwap` is NOT_STARTED exactly when `now < start`,
ACTIVE exactly when `start <= now < end`, and ENDED exactly when
`now >= end` — in particular `now = end` yields ENDED. -/
theorem statusOf_window_boundaries (now : Int) (endT days : Rat) (hd : 0 ≤ days) :
    (statusOf now (endT - days * 86400) endT = .NOT_STARTED ↔
      (now : Rat) < endT - days * 86400) ∧
    (statusOf now (endT - days * 86400) endT = .ACTIVE ↔
      endT - days * 86400 ≤ (now : Rat) ∧ (now : Rat) < endT) ∧
    (statusOf now (endT - days * 86400) endT = .ENDED ↔ endT ≤ (now : Rat)) := by
  have hse : endT - days * 86400 ≤ endT := by nlinarith
  unfold statusOf
  split_ifs with h1 h2
  · exact ⟨iff_of_true rfl h1,
      iff_of_false (by decide) (by rintro ⟨ha, -⟩; linarith),
      iff_of_false (by decide) (by intro hc; linarith)⟩
  · exact ⟨iff_of_false (by decide) h1,
      iff_of_false (by decide) (by rintro ⟨-, hb⟩; linarith),
      iff_of_true rfl h2⟩
  · exact ⟨iff_of_false (by decide) h1,
      iff_of_true rfl ⟨not_lt.1 h1, not_le.1 h2⟩,
      iff_of_false (by decide) h2⟩

/-- Witness for C5 at `now = end` exactly (`now = 0`, `end = 0`, `days = 5`):
the ENDED clause applies at the boundary. -/
theorem statusOf_window_boundaries_witness :
    (statusOf 0 ((0 : Rat) - 5 * 86400) 0 = .NOT_STARTED ↔
      ((0 : Int) : Rat) < (0 : Rat) - 5 * 86400) ∧
    (statusOf 0 ((0 : Rat) - 5 * 86400) 0 = .ACTIVE ↔
      (0 : Rat) - 5 * 86400 ≤ ((0 : Int) : Rat) ∧ ((0 : Int) : Rat) < (0 : Rat)) ∧
    (statusOf 0 ((0 : Rat) - 5 * 86400) 0 = .ENDED ↔ (0 : Rat) ≤ ((0 : Int) : Rat)) :=
  statusOf_window_boundaries 0 0 5 (by norm_num)

/-- Claim C2: `averageTick` is the exact integer difference of the two
cumulative ticks divided by the window: for synthetic readings
`(oldest = 1000, latest = 1000 + 600*N)` over a 600-second window,
`averageTick = N` exactly for every integer `N`, negative values included;
the difference is taken in unbounded `Int` (the source's `BigInt`) before
the division. -/
theorem averageTick_exact_of_cumulatives (N : Int) :
    averageTickOf 1000 (1000 + 600 * N) 600 = (N : Rat) ∧
    ∀ (env : TwapEnv) (pool : Nat) (invert : Bool) (r : PoolTwap),
      env.tickCumulatives pool 600 = .ok (1000, 1000 + 600 * N) →
      calculatePoolTwap env pool 600 invert = .ok r →
      r.averageTick = (N : Rat) := by
  have hav : averageTickOf 1000 (1000 + 600 * N) 600 = (N : Rat) := by
    unfold averageTickOf
    push_cast
    field_simp
  refine ⟨hav, ?_⟩
  intro env pool invert r htc hr
  have hsw : secondsWindowOf (600 : Rat) = 600 := by decide
  simp only [calculatePoolTwap, hsw, htc, hav] at hr
  cases hpow : env.pow10001 (N : Rat) with
  | none => simp [hpow] at hr
  | some rp =>
    simp only [hpow] at hr
    by_cases hle : rp ≤ 0
    · rw [if_pos hle] at hr; simp at hr
    · rw [if_neg hle] at hr
      simp only [Except.ok.injEq] at hr
      rw [← hr]

/-- Witness for C2 at `N = -2`: the synthetic readings `(1000, -200)` over a
600-second window yield an average tick of exactly -2. -/
theorem averageTick_exact_witness :
    ∃ r : PoolTwap, calculatePoolTwap envC2 7 600 false = .ok r ∧
      r.averageTick = ((-2 : Int) : Rat) := by
  have h : calculatePoolTwap envC2 7 600 false = .ok ⟨1, 1, -2, 600, false⟩ := by
    simp only [calculatePoolTwap, envC2, envA]
    norm_num [secondsWindowOf, averageTickOf]
  exact ⟨_, h, (averageTick_exact_of_cumulatives (-2)).2 envC2 7 false _ rfl h⟩

/-- Claim C8: in `calculatePoolTwap`, `rawPrice` is the `Math.pow(1.0001, ·)`
evaluation at `averageTick`, the normalized price is `1/rawPrice` when
inversion is requested and `rawPrice` otherwise, and for the same tick data
the inverted and non-inverted normalized prices multiply to 1. -/
theorem calculatePoolTwap_roundtrip (env : TwapEnv) (pool : Nat) (secondsAgo : Rat)
    (r1 r2 : PoolTwap)
    (h1 : calculatePoolTwap env pool secondsAgo true = .ok r1)
    (h2 : calculatePoolTwap env pool secondsAgo false = .ok r2) :
    r1.rawPrice = r2.rawPrice ∧
    env.pow10001 r1.averageTick = some r1.rawPrice ∧
    r1.normalizedPrice = 1 / r1.rawPrice ∧
    r2.normalizedPrice = r2.rawPrice ∧
    r1.normalizedPrice * r2.normalizedPrice = 1 := by
  simp only [calculatePoolTwap] at h1 h2
  cases htc : env.tickCumulatives pool (secondsWindowOf secondsAgo) with
  | error e => simp [htc] at h1
  | ok pr =>
    obtain ⟨oldest, latest⟩ := pr
    simp only [htc] at h1 h2
    cases hpow : env.pow10001 (averageTickOf oldest latest (secondsWindowOf secondsAgo)) with
    | none => simp [hpow] at h1
    | some rp =>
      simp only [hpow] at h1 h2
      by_cases hle : rp ≤ 0
      · rw [if_pos hle] at h1; simp at h1
      · rw [if_neg hle] at h1 h2
        simp only [Except.ok.injEq] at h1 h2
        subst h1; subst h2
        have hne : rp ≠ 0 := fun hz => hle (le_of_eq hz)
        refine ⟨rfl, hpow, rfl, rfl, ?_⟩
        simp [inv_mul_cancel₀ hne]

/-- Witness for C8: a concrete environment in which both the inverted and
non-inverted TWAP computations succeed and the round-trip law holds. -/
theorem calculatePoolTwap_roundtrip_witness :
    ∃ r1 r2 : PoolTwap, calculatePoolTwap envA 7 600 true = .ok r1 ∧
      calculatePoolTwap envA 7 600 false = .ok r2 ∧
      r1.normalizedPrice * r2.normalizedPrice = 1 :=
  ⟨_, _, rfl, rfl, (calculatePoolTwap_roundtrip envA 7 600 _ _ rfl rfl).2.2.2.2⟩

/-- Claim C10: `calculateTwap` treats falsy option values as absent: passing
`days = 0` behaves identically to omitting `days` (default 5), and passing
`endTimestamp = 0` behaves identically to omitting `endTimestamp` (the
current wall-clock time is used). -/
theorem calculateTwap_zero_options_default (env : TwapEnv) (addr : String) (chainId : Nat)
    (d ts : Option Rat) (rp : Option String) :
    calculateTwap env addr chainId ⟨some 0, ts, rp⟩ =
      calculateTwap env addr chainId ⟨none, ts, rp⟩ ∧
    calculateTwap env addr chainId ⟨d, some 0, rp⟩ =
      calculateTwap env addr chainId ⟨d, none, rp⟩ := by
  constructor
  · unfold calculateTwap
    have hd : windowDays ⟨some 0, ts, rp⟩ = windowDays ⟨none, ts, rp⟩ := by
      simp [windowDays]
    have he : windowEnd env ⟨some 0, ts, rp⟩ = windowEnd env ⟨none, ts, rp⟩ := rfl
    rw [hd, he]
  · unfold calculateTwap
    have hd : windowDays ⟨d, some 0, rp⟩ = windowDays ⟨d, none, rp⟩ := rfl
    have he : windowEnd env ⟨d, some 0, rp⟩ = windowEnd env ⟨d, none, rp⟩ := by
      simp [windowEnd]
    rw [hd, he]

/-- Claim C3: when exactly one conditional pool is found (YES lookup null,
NO lookup an address), `calculateTwap` returns normally — no exception —
with an error-flagged result whose `pools.yes` is null, whose `pools.no`
holds the found address, and which carries the six resolved token
addresses. -/
theorem calculateTwap_missing_yes_pool (env : TwapEnv) (addr : String) (chainId : Nat)
    (config : ChainConfig) (tokens : ProposalTokens) (a : Nat) (opts : TwapOptions)
    (hc : CHAIN_CONFIG chainId = some config)
    (ht : env.tokens = .ok tokens)
    (hy : findPool config env tokens.yesCompany tokens.yesCurrency = none)
    (hn : findPool config env tokens.noCompany tokens.noCurrency = some a) :
    calculateTwap env addr chainId opts = .ok
      { proposalAddress := addr
        chainId := chainId
        chain := config.name
        marketName := tokens.marketName
        error := some "Could not find YES/NO conditional pools on-chain"
        tokens :=
          { company := none
            currency := none
            yesCompany := tokens.yesCompany
            noCompany := tokens.noCompany
            yesCurrency := tokens.yesCurrency
            noCurrency := tokens.noCurrency
            companyToken := some tokens.companyToken
            currencyToken := some tokens.currencyToken }
        pools := (none, some { address := a, inverted := none })
        twapWindow := none
        status := none
        twap := none
        timeUntilStart := none
        timeRemaining := none } := by
  unfold calculateTwap calculateTwapCore discoverConditionalPools
  simp only [hc, ht, hy, hn]
  rfl

/-- Witness for C3: in `envA` on chain 100 the YES pair has no pool and the
NO pair resolves to address 7; the call returns the error-flagged result. -/
theorem calculateTwap_missing_yes_pool_witness :
    calculateTwap envA "0xproposal" 100 ⟨none, none, none⟩ = .ok
      { proposalAddress := "0xproposal"
        chainId := 100
        chain := "Gnosis"
        marketName := "Market"
        error := some "Could not find YES/NO conditional pools on-chain"
        tokens :=
          { company := none
            currency := none
            yesCompany := 1
            noCompany := 3
            yesCurrency := 2
            noCurrency := 4
            companyToken := some 5
            currencyToken := some 6 }
        pools := (none, some { address := 7, inverted := none })
        twapWindow := none
        status := none
        twap := none
        timeUntilStart := none
        timeRemaining := none } :=
  calculateTwap_missing_yes_pool envA "0xproposal" 100 gnosisConfig
    ⟨1, 3, 2, 4, 5, 6, "Market"⟩ 7 ⟨none, none, none⟩ rfl rfl rfl rfl

/-- Claim C4: when `calculateTwap` reaches the TWAP step (both pools found,
both orientations detected, window not NOT_STARTED) and that step raises —
e.g. `calculatePoolTwap`'s `Invalid price from oracle` — the call still
returns normally with an error field describing the failure, and the result
preserves everything resolved before the step: tokens, pools with inversion
flags, twapWindow, and status; `twap` itself stays absent. -/
theorem calculateTwap_twap_step_failure (env : TwapEnv) (addr : String) (chainId : Nat)
    (config : ChainConfig) (tokens : ProposalTokens) (yp np : Nat) (yi ni : Inversion)
    (msg : String) (opts : TwapOptions)
    (hc : CHAIN_CONFIG chainId = some config)
    (ht : env.tokens = .ok tokens)
    (hy : findPool config env tokens.yesCompany tokens.yesCurrency = some yp)
    (hn : findPool config env tokens.noCompany tokens.noCurrency = some np)
    (hyi : detectInversion env yp tokens.yesCompany = .ok yi)
    (hni : detectInversion env np tokens.noCompany = .ok ni)
    (hst : statusOf env.now (windowEnd env opts - windowDays opts * 86400)
      (windowEnd env opts) ≠ .NOT_STARTED)
    (hfail :
      calculatePoolTwap env yp
        (twapSecondsAgo env.now (windowEnd env opts - windowDays opts * 86400)
          (windowDays opts * 86400)
          (statusOf env.now (windowEnd env opts - windowDays opts * 86400)
            (windowEnd env opts)))
        yi.shouldInvert = .error msg ∨
      ((∃ y, calculatePoolTwap env yp
          (twapSecondsAgo env.now (windowEnd env opts - windowDays opts * 86400)
            (windowDays opts * 86400)
            (statusOf env.now (windowEnd env opts - windowDays opts * 86400)
              (windowEnd env opts)))
          yi.shouldInvert = .ok y) ∧
        calculatePoolTwap env np
          (twapSecondsAgo env.now (windowEnd env opts - windowDays opts * 86400)
            (windowDays opts * 86400)
            (statusOf env.now (windowEnd env opts - windowDays opts * 86400)
              (windowEnd env opts)))
          ni.shouldInvert = .error msg)) :
    calculateTwap env addr chainId opts = .ok
      { proposalAddress := addr
        chainId := chainId
        chain := config.name
        marketName := tokens.marketName
        error := some ("TWAP calculation failed: " ++ msg)
        tokens :=
          { company := some (env.tokenInfo tokens.companyToken)
            currency := some (env.tokenInfo tokens.currencyToken)
            yesCompany := tokens.yesCompany
            noCompany := tokens.noCompany
            yesCurrency := tokens.yesCurrency
            noCurrency := tokens.noCurrency
            companyToken := none
            currencyToken := none }
        pools := (some { address := yp, inverted := some yi.shouldInvert },
                  some { address := np, inverted := some ni.shouldInvert })
        twapWindow := some
          { startTimestamp := windowEnd env opts - windowDays opts * 86400
            endTimestamp := windowEnd env opts
            days := windowDays opts
            durationSeconds := windowDays opts * 86400 }
        status := some (statusOf env.now
          (windowEnd env opts - windowDays opts * 86400) (windowEnd env opts))
        twap := none
        timeUntilStart := none
        timeRemaining := none } := by
  unfold calculateTwap calculateTwapCore discoverConditionalPools
  simp only [hc, ht, hy, hn, hyi, hni]
  rw [if_neg hst]
  rcases hfail with herr | ⟨⟨y, hok⟩, herr2⟩
  · simp only [herr]
  · simp only [hok, herr2]

/-- Witness for C4: in `envB` (both pools found, `Math.pow` non-finite) with
an ENDED window, the result keeps tokens, pools, window and status and
carries the `Invalid price from oracle` failure in its error field. -/
theorem calculateTwap_twap_step_failure_witness :
    calculateTwap envB "0xproposal" 100 ⟨none, some 1000, none⟩ = .ok
      { proposalAddress := "0xproposal"
        chainId := 100
        chain := "Gnosis"
        marketName := "Market"
        error := some "TWAP calculation failed: Invalid price from oracle"
        tokens :=
          { company := some ⟨5, "TOK", 18⟩
            currency := some ⟨6, "TOK", 18⟩
            yesCompany := 1
            noCompany := 3
            yesCurrency := 2
            noCurrency := 4
            companyToken := none
            currencyToken := none }
        pools := (some { address := 8, inverted := some false },
                  some { address := 7, inverted := some true })
        twapWindow := some
          { startTimestamp := -431000
            endTimestamp := 1000
            days := 5
            durationSeconds := 432000 }
        status := some .ENDED
        twap := none
        timeUntilStart := none
        timeRemaining := none } := by
  have h := calculateTwap_twap_step_failure envB "0xproposal" 100 gnosisConfig
    ⟨1, 3, 2, 4, 5, 6, "Market"⟩ 8 7 ⟨false, 1⟩ ⟨true, 99⟩
    "Invalid price from oracle" ⟨none, some 1000, none⟩
    rfl rfl rfl rfl rfl rfl
    (by norm_num [statusOf, windowEnd, windowDays, envB]; decide)
    (Or.inl rfl)
  rw [h]
  norm_num [windowEnd, windowDays, statusOf, envB]
  exact ⟨rfl, rfl⟩

/-- Claim C6: on the Uniswap V3 protocol, `findPool` probes every configured
fee tier (each lookup error-caught to the zero address) and returns the
earliest tier in the declared order `[500, 3000, 10000, 100]` whose lookup
is non-zero, or null when every tier resolves to zero or errors; the total
`Option`-valued characterization shows no exception reaches the caller. -/
theorem findPool_uniswap_tier_order (env : TwapEnv) (tA tB : Nat) :
    findPool ethereumConfig env tA tB =
      (if exceptToZero (env.getPool tA tB 500) ≠ 0 then
        some (exceptToZero (env.getPool tA tB 500))
      else if exceptToZero (env.getPool tA tB 3000) ≠ 0 then
        some (exceptToZero (env.getPool tA tB 3000))
      else if exceptToZero (env.getPool tA tB 10000) ≠ 0 then
        some (exceptToZero (env.getPool tA tB 10000))
      else if exceptToZero (env.getPool tA tB 100) ≠ 0 then
        some (exceptToZero (env.getPool tA tB 100))
      else none) := by
  cases h1 : exceptToZero (env.getPool tA tB 500) != 0 <;>
  cases h2 : exceptToZero (env.getPool tA tB 3000) != 0 <;>
  cases h3 : exceptToZero (env.getPool tA tB 10000) != 0 <;>
  cases h4 : exceptToZero (env.getPool tA tB 100) != 0 <;>
  simp only [findPool, ethereumConfig, List.map_cons, List.map_nil, List.find?,
    h1, h2, h3, h4] <;>
  simp_all [bne_iff_ne, bne_eq_false_iff_eq]

/-- Any successfully built `discoverPools` entry carries the pair's declared
name and an `exists` flag that agrees with non-nullness of the address. -/
theorem mkPoolEntry_ok_spec (config : ChainConfig) (env : TwapEnv) (t : ProposalTokens)
    (name : String) (t0 t1 : Nat) (e : PoolEntry)
    (h : mkPoolEntry config env t name t0 t1 = .ok e) :
    e.name = name ∧ e.exists_ = e.address.isSome := by
  unfold mkPoolEntry at h
  cases hf : findPool config env t0 t1 with
  | none =>
    simp only [hf, Except.ok.injEq] at h
    rw [← h]
    exact ⟨rfl, rfl⟩
  | some a =>
    simp only [hf] at h
    by_cases hcond : jsIncludes name "Conditional" = true
    · rw [if_pos hcond] at h
      cases hd : detectInversion env a (if jsStartsWith name "YES" then t.yesCompany
          else t.noCompany) with
      | error er => simp only [hd] at h; simp at h
      | ok inv =>
        simp only [hd, Except.ok.injEq] at h
        rw [← h]
        exact ⟨rfl, rfl⟩
    · rw [if_neg hcond] at h
      simp only [Except.ok.injEq] at h
      rw [← h]
      exact ⟨rfl, rfl⟩

/-- Claim C7: every successful `discoverPools` call returns exactly 6
entries, in the fixed declared pair order (two conditional pairs first,
then the four prediction pairs), with `total = 6` and `found` equal to the
number of entries whose address is non-null, equivalently whose `exists`
flag is set. -/
theorem discoverPools_six_entries (env : TwapEnv) (addr : String) (chainId : Nat)
    (opts : TwapOptions) (r : PoolsResult)
    (h : discoverPools env addr chainId opts = .ok r) :
    r.pools.length = 6 ∧ r.total = 6 ∧
    r.found = (r.pools.filter fun e => e.address.isSome).length ∧
    r.pools.map PoolEntry.name = poolPairNames ∧
    ∀ e ∈ r.pools, e.exists_ = e.address.isSome := by
  unfold discoverPools at h
  cases hc : CHAIN_CONFIG chainId with
  | none => simp only [hc] at h; simp at h
  | some config =>
    simp only [hc] at h
    cases ht : env.tokens with
    | error er => simp only [ht] at h; simp at h
    | ok t =>
      simp only [ht] at h
      cases h1 : mkPoolEntry config env t "YES_COMPANY/YES_CURRENCY (Conditional)"
          t.yesCompany t.yesCurrency with
      | error er => simp only [h1] at h; simp at h
      | ok e1 =>
      cases h2 : mkPoolEntry config env t "NO_COMPANY/NO_CURRENCY (Conditional)"
          t.noCompany t.noCurrency with
      | error er => simp only [h1, h2] at h; simp at h
      | ok e2 =>
      cases h3 : mkPoolEntry config env t "YES_COMPANY/BASE_CURRENCY (Prediction)"
          t.yesCompany t.currencyToken with
      | error er => simp only [h1, h2, h3] at h; simp at h
      | ok e3 =>
      cases h4 : mkPoolEntry config env t "NO_COMPANY/BASE_CURRENCY (Prediction)"
          t.noCompany t.currencyToken with
      | error er => simp only [h1, h2, h3, h4] at h; simp at h
      | ok e4 =>
      cases h5 : mkPoolEntry config env t "YES_CURRENCY/BASE_CURRENCY (Prediction)"
          t.yesCurrency t.currencyToken with
      | error er => simp only [h1, h2, h3, h4, h5] at h; simp at h
      | ok e5 =>
      cases h6 : mkPoolEntry config env t "NO_CURRENCY/BASE_CURRENCY (Prediction)"
          t.noCurrency t.currencyToken with
      | error er => simp only [h1, h2, h3, h4, h5, h6] at h; simp at h
      | ok e6 =>
        simp only [h1, h2, h3, h4, h5, h6, Except.ok.injEq] at h
        obtain ⟨s11, s12⟩ := mkPoolEntry_ok_spec config env t _ _ _ _ h1
        obtain ⟨s21, s22⟩ := mkPoolEntry_ok_spec config env t _ _ _ _ h2
        obtain ⟨s31, s32⟩ := mkPoolEntry_ok_spec config env t _ _ _ _ h3
        obtain ⟨s41, s42⟩ := mkPoolEntry_ok_spec config env t _ _ _ _ h4
        obtain ⟨s51, s52⟩ := mkPoolEntry_ok_spec config env t _ _ _ _ h5
        obtain ⟨s61, s62⟩ := mkPoolEntry_ok_spec config env t _ _ _ _ h6
        subst h
        have hmem : ∀ e ∈ [e1, e2, e3, e4, e5, e6], e.exists_ = e.address.isSome := by
          intro e he
          simp only [List.mem_cons, List.not_mem_nil, or_false] at he
          rcases he with rfl | rfl | rfl | rfl | rfl | rfl
          · exact s12
          · exact s22
          · exact s32
          · exact s42
          · exact s52
          · exact s62
        refine ⟨rfl, rfl, ?_, ?_, hmem⟩
        · simp only
          rw [List.filter_congr hmem]
        · simp only [List.map_cons, List.map_nil, s11, s21, s31, s41, s51, s61]
          rfl

/-- Witness for C7: in `envA`, only the NO conditional pair has a pool; the
call succeeds with 6 entries and `found` counting the non-null address. -/
theorem discoverPools_six_entries_witness :
    ∃ r : PoolsResult, discoverPools envA "0xproposal" 100 ⟨none, none, none⟩ = .ok r ∧
      r.pools.length = 6 ∧ r.total = 6 ∧
      r.found = (r.pools.filter fun e => e.address.isSome).length ∧
      r.pools.map PoolEntry.name = poolPairNames :=
  have h := discoverPools_six_entries envA "0xproposal" 100 ⟨none, none, none⟩ _ rfl
  ⟨_, rfl, h.1, h.2.1, h.2.2.1, h.2.2.2.1⟩

/-- A successful association-list lookup exhibits a member pair. -/
theorem lookup_mem_pair {l : List (String × Nat)} {k : String} {v : Nat}
    (h : l.lookup k = some v) : (k, v) ∈ l := by
  induction l with
  | nil => simp [List.lookup] at h
  | cons p t ih =>
    obtain ⟨pk, pv⟩ := p
    simp only [List.lookup] at h
    by_cases hk : k = pk
    · subst hk
      simp only [beq_self_eq_true] at h
      simp only [Option.some.injEq] at h
      subst h
      exact List.mem_cons_self _ _
    · rw [beq_eq_false_iff_ne.mpr hk] at h
      exact List.mem_cons_of_mem _ (ih h)

/-- With pairwise-distinct stored values, two successful lookups of the same
value come from the same key. -/
theorem lookup_inj_of_nodup  {l : List (String × Nat)}
    (hnd : (l.map Prod.snd).Nodup) {k1 k2 : String} {v : Nat}
    (h1 : l.lookup k1 = some v) (h2 : l.lookup k2 = some v) : k1 = k2 := by
  induction l with
  | nil => simp [List.lookup] at h1
  | cons p t ih =>
    obtain ⟨pk, pv⟩ := p
    simp only [List.map_cons, List.nodup_cons] at hnd
    simp only [List.lookup] at h1 h2
    by_cases e1 : k1 = pk <;> by_cases e2 : k2 = pk
    · rw [e1, e2]
    · exfalso
      subst e1
      simp only [beq_self_eq_true, Option.some.injEq] at h1
      rw [beq_eq_false_iff_ne.mpr e2] at h2
      exact hnd.1 (h1 ▸ List.mem_map_of_mem Prod.snd (lookup_mem_pair h2))
    · exfalso
      subst e2
      simp only [beq_self_eq_true, Option.some.injEq] at h2
      rw [beq_eq_false_iff_ne.mpr e1] at h1
      exact hnd.1 (h2 ▸ List.mem_map_of_mem Prod.snd (lookup_mem_pair h1))
    · rw [beq_eq_false_iff_ne.mpr e1] at h1
      rw [beq_eq_false_iff_ne.mpr e2] at h2
      exact ih hnd.2 h1 h2

/-- A successful `getProvider` call either hits the cache and leaves the
state unchanged, or misses, validates the chain, and inserts a fresh
provider identity under the key. -/
theorem getProvider_spec {st : ProviderCache} {c : Nat} {u : Option String} {p : Nat}
    {st' : ProviderCache} (h : getProvider st c u = .ok (p, st')) :
    (st.entries.lookup (cacheKey c u) = some p ∧ st' = st) ∨
    (st.entries.lookup (cacheKey c u) = none ∧ p = st.nextId ∧
      st' = { entries := (cacheKey c u, st.nextId) :: st.entries, nextId := st.nextId + 1 }) := by
  unfold getProvider at h
  cases hl : st.entries.lookup (cacheKey c u) with
  | some q =>
    simp only [hl, Except.ok.injEq, Prod.mk.injEq] at h
    exact Or.inl ⟨by rw [h.1], h.2.symm⟩
  | none =>
    simp only [hl] at h
    cases hc : CHAIN_CONFIG c with
    | none => simp only [hc] at h; simp at h
    | some cfg =>
      simp only [hc, Except.ok.injEq, Prod.mk.injEq] at h
      exact Or.inr ⟨rfl, h.1.symm, h.2.symm⟩

/-- `getProvider` preserves cache well-formedness. -/
theorem getProvider_WF {st : ProviderCache} {c : Nat} {u : Option String} {p : Nat}
    {st' : ProviderCache} (h : getProvider st c u = .ok (p, st'))
    (hWF : st.WF) : st'.WF := by
  rcases getProvider_spec h with ⟨-, rfl⟩ | ⟨-, -, rfl⟩
  · exact hWF
  · constructor
    · intro e he
      simp only [List.mem_cons] at he
      rcases he with rfl | he
      · exact Nat.lt_succ_self _
      · exact Nat.lt_succ_of_lt (hWF.1 e he)
    · simp only [List.map_cons, List.nodup_cons]
      refine ⟨?_, hWF.2⟩
      intro hmem
      obtain ⟨e, he, hev⟩ := List.mem_map.1 hmem
      exact absurd (hev ▸ hWF.1 e he) (lt_irrefl _)

/-- `getProvider` never removes or replaces a cache entry. -/
theorem getProvider_preserves_lookup {st : ProviderCache} {c : Nat} {u : Option String}
    {p : Nat} {st' : ProviderCache} {k : String} {q : Nat}
    (h : getProvider st c u = .ok (p, st'))
    (hk : st.entries.lookup k = some q) : st'.entries.lookup k = some q := by
  rcases getProvider_spec h with ⟨-, rfl⟩ | ⟨hl, -, rfl⟩
  · exact hk
  · have hne : k ≠ cacheKey c u := by
      intro he
      rw [he, hl] at hk
      exact Option.noConfusion hk
    simp only [List.lookup]
    rw [beq_eq_false_iff_ne.mpr hne]
    exact hk

/-- Claim C9 counterexample: two `getProvider` calls that agree on the RPC
override but disagree on the chain id (100 vs 1) reuse the same cached
connection, because the cache key is `rpcUrl || chainId`, not the
(chain, RPC-override) pair. -/
theorem getProvider_shared_across_chains_counterexample :
    getProvider emptyProviderCache 100 (some "u") = .ok (0, ⟨[("u", 0)], 1⟩) ∧
    getProvider ⟨[("u", 0)], 1⟩ 1 (some "u") = .ok (0, ⟨[("u", 0)], 1⟩) ∧
    (100 : Nat) ≠ 1 :=
  ⟨rfl, rfl, by decide⟩

/-- Claim C9 (amended): the connection cache is keyed by the RPC override
when present and non-empty, else by the chain id: from any well-formed cache
state, two successive successful `getProvider` calls return the same
connection exactly when their cache keys agree, and existing entries are
never invalidated by either call. -/
theorem getProvider_cache_keyed_by_override_or_chain
    (st : ProviderCache) (c1 c2 : Nat) (u1 u2 : Option String)
    (p1 p2 : Nat) (st1 st2 : ProviderCache) (k : String) (q : Nat)
    (hWF : st.WF)
    (h1 : getProvider st c1 u1 = .ok (p1, st1))
    (h2 : getProvider st1 c2 u2 = .ok (p2, st2))
    (hk : st.entries.lookup k = some q) :
    (p1 = p2 ↔ cacheKey c1 u1 = cacheKey c2 u2) ∧
    st1.entries.lookup k = some q ∧ st2.entries.lookup k = some q := by
  have hWF1 := getProvider_WF h1 hWF
  have hp1 := getProvider_preserves_lookup h1 hk
  have hp2 := getProvider_preserves_lookup h2 hp1
  refine ⟨?_, hp1, hp2⟩
  rcases getProvider_spec h1 with ⟨hl1, rfl⟩ | ⟨hl1, hq1, rfl⟩
  · rcases getProvider_spec h2 with ⟨hl2, rfl⟩ | ⟨hl2, hq2, rfl⟩
    · constructor
      · intro hpe
        exact lookup_inj_of_nodup hWF.2 hl1 (hpe ▸ hl2)
      · intro hke
        rw [hke, hl2] at hl1
        exact (Option.some.inj hl1).symm
    · have hlt := hWF.1 _ (lookup_mem_pair hl1)
      constructor
      · intro hpe
        rw [hpe, hq2] at hlt
        exact absurd hlt (lt_irrefl _)
      · intro hke
        rw [hke, hl2] at hl1
        exact Option.noConfusion hl1
  · have hhead : (ProviderCache.mk ((cacheKey c1 u1, st.nextId) :: st.entries)
        (st.nextId + 1)).entries.lookup (cacheKey c1 u1) = some st.nextId := by
      simp [List.lookup]
    rcases getProvider_spec h2 with ⟨hl2, rfl⟩ | ⟨hl2, hq2, rfl⟩
    · constructor
      · intro hpe
        refine lookup_inj_of_nodup hWF1.2 hhead ?_
        rw [← hpe, hq1] at hl2
        exact hl2
      · intro hke
        rw [← hke, hhead] at hl2
        rw [hq1, Option.some.inj hl2]
    · constructor
      · intro hpe
        rw [hq1] at hpe
        rw [hq2] at hpe
        simp at hpe
      · intro hke
        rw [← hke, hhead] at hl2
        exact Option.noConfusion hl2

/-- Witness for amended C9: from a well-formed one-entry cache, two
identical calls return the same fresh connection (keys agree), and the
pre-existing entry survives both calls. -/
theorem getProvider_cache_keyed_witness :
    ((1 : Nat) = 1 ↔ cacheKey 100 none = cacheKey 100 none) ∧
    (ProviderCache.mk [("100", 1), ("x", 0)] 2).entries.lookup "x" = some 0 ∧
    (ProviderCache.mk [("100", 1), ("x", 0)] 2).entries.lookup "x" = some 0 :=
  getProvider_cache_keyed_by_override_or_chain ⟨[("x", 0)], 1⟩ 100 100 none none 1 1
    ⟨[("100", 1), ("x", 0)], 2⟩ ⟨[("100", 1), ("x", 0)], 2⟩ "x" 0
    (by constructor
        · intro e he
          simp only [List.mem_cons, List.not_mem_nil, or_false] at he
          subst he
          exact Nat.zero_lt_one
        · simp)
    rfl rfl rfl
